import Mathlib

/-
Verification of the WebAssembly module-compilation orchestrator
(src/src/wasm/module-compiler.cc) against its specification.

The development shallowly embeds the parts of CompilationStateImpl and
CompilationUnitBuilder that the verified properties talk about:
  - counters, queues, the error latch and the finisher flag become fields of
    an explicit state record;
  - posting a task to a task runner is modelled by ghost counters
    (posted_fail_tasks, posted_finisher_tasks, spawned_worker_tasks) that
    count the tasks handed to the runner;
  - a call to NotifyOnEvent is modelled by appending the event to the ghost
    list firedEvents, and delivery of events to the registered callbacks is
    modelled separately by CallbacksState.NotifyOnEvent;
  - DCHECK failures (debug assertions) are modelled as Option.none results
    where the verified property depends on them.
-/

namespace ModuleCompiler

/-- Execution tiers of a compilation unit (module-compiler.cc uses
ExecutionTier::kBaseline and ExecutionTier::kOptimized). -/
inductive ExecutionTier where
  | kBaseline
  | kOptimized
deriving DecidableEq, Repr

/-- Compile mode of a compilation state, fixed at construction
(module-compiler.cc line 56). -/
inductive CompileMode where
  | kRegular
  | kTiering
deriving DecidableEq, Repr

/-- Modelled from the spec: the CompilationEvent enum is declared in
compilation-environment.h, which is not part of the sources; the spec lists
FinishedBaselineCompilation, FinishedTopTierCompilation and FailedCompilation
and states that the last two are final. module-compiler.cc line 3259 compares
events against kFirstFinalEvent, which therefore denotes
kFinishedTopTierCompilation. -/
inductive CompilationEvent where
  | kFinishedBaselineCompilation
  | kFinishedTopTierCompilation
  | kFailedCompilation
deriving DecidableEq, Repr

/-- Numeric value of an event in the CompilationEvent enum. -/
def CompilationEvent.code : CompilationEvent → Nat
  | .kFinishedBaselineCompilation => 0
  | .kFinishedTopTierCompilation => 1
  | .kFailedCompilation => 2

/-- Numeric value of CompilationEvent::kFirstFinalEvent
(= kFinishedTopTierCompilation). -/
def kFirstFinalEvent : Nat := 1

/-- Whether an event is final, i.e. event >= kFirstFinalEvent
(module-compiler.cc line 3259). -/
def CompilationEvent.isFinal (e : CompilationEvent) : Bool :=
  decide (kFirstFinalEvent ≤ e.code)

/-- An error result: offset and message, mirroring VoidResult::Error(offset, msg). -/
structure VoidResult where
  error_offset : Nat
  error_msg : String
deriving DecidableEq, Repr

/-- CompilationStateImpl::CompilationError (module-compiler.cc lines 165-171):
the offending function index together with the stored error result. -/
structure CompilationError where
  func_index : Nat
  result : VoidResult
deriving DecidableEq, Repr

/-- A compilation unit: one function at one target tier
(the slice of WasmCompilationUnit the orchestrator inspects). -/
structure WasmCompilationUnit where
  func_index : Nat
  tier : ExecutionTier
deriving DecidableEq, Repr

/-- The fields of CompilationStateImpl (module-compiler.cc lines 229-285) that
the verified properties mention, together with ghost fields recording the
interactions with the task runners:
  - firedEvents records, in order, the events passed to NotifyOnEvent;
  - posted_fail_tasks counts the foreground tasks posted by SetError;
  - posted_finisher_tasks counts the finisher tasks posted by
    ScheduleFinisherTask;
  - spawned_worker_tasks counts the background tasks spawned by
    RestartBackgroundTasks. -/
structure CompilationStateImpl where
  compile_mode : CompileMode
  compile_error : Option CompilationError
  baseline_compilation_units : List WasmCompilationUnit
  tiering_compilation_units : List WasmCompilationUnit
  finisher_is_running : Bool
  num_background_tasks : Nat
  baseline_finish_units : List WasmCompilationUnit
  tiering_finish_units : List WasmCompilationUnit
  max_background_tasks : Nat
  outstanding_baseline_units : Nat
  outstanding_tiering_units : Nat
  firedEvents : List CompilationEvent
  posted_fail_tasks : Nat
  posted_finisher_tasks : Nat
  spawned_worker_tasks : Nat
deriving DecidableEq, Repr

/-- CompilationStateImpl::failed (lines 109-111): the error latch is set. -/
def CompilationStateImpl.failed (s : CompilationStateImpl) : Bool :=
  s.compile_error.isSome

/-- CompilationStateImpl::baseline_compilation_finished (lines 113-117). -/
def CompilationStateImpl.baseline_compilation_finished
    (s : CompilationStateImpl) : Bool :=
  decide (s.outstanding_baseline_units = 0 ∨
    (s.compile_mode = CompileMode.kTiering ∧ s.outstanding_tiering_units = 0))

/-- CompilationStateImpl::SetNumberOfFunctionsToCompile (lines 3025-3032).
The function body runs DCHECK(!failed()) and then assigns the counters; the
DCHECK failure is modelled as Option.none. -/
def CompilationStateImpl.SetNumberOfFunctionsToCompile
    (s : CompilationStateImpl) (num_functions : Nat) :
    Option CompilationStateImpl :=
  if s.failed then none
  else
    some { s with
      outstanding_baseline_units := num_functions,
      outstanding_tiering_units :=
        if s.compile_mode = CompileMode.kTiering then num_functions
        else s.outstanding_tiering_units }

/-- CompilationStateImpl::SetError (lines 3230-3250): compare-and-exchange of
the error latch from null; on success post one foreground task that will fire
kFailedCompilation (counted in posted_fail_tasks); otherwise the call is
ignored and the freshly allocated error is dropped. -/
def CompilationStateImpl.SetError (s : CompilationStateImpl)
    (func_index : Nat) (error_result : VoidResult) : CompilationStateImpl :=
  match s.compile_error with
  | some _ => s
  | none =>
    { s with
      compile_error := some ⟨func_index, error_result⟩,
      posted_fail_tasks := s.posted_fail_tasks + 1 }

/-- A sequence of SetError calls, applied in order. -/
def CompilationStateImpl.setErrorTrace (s : CompilationStateImpl)
    (errs : List (Nat × VoidResult)) : CompilationStateImpl :=
  errs.foldl (fun t e => t.SetError e.1 e.2) s

/-- CompilationStateImpl::OnFinishedUnit (lines 3096-3126): a unit counts as a
tiering unit iff the mode is tiering and the baseline counter is zero; the
matching counter is decremented and events fire when counters hit zero.
The DCHECK_LT assertions on the decremented counter are not modelled here;
properties that depend on them carry the corresponding positivity hypothesis. -/
def CompilationStateImpl.OnFinishedUnit (s : CompilationStateImpl) :
    CompilationStateImpl :=
  if s.compile_mode = CompileMode.kTiering ∧ s.outstanding_baseline_units = 0 then
    if s.outstanding_tiering_units - 1 = 0 then
      { s with
        outstanding_tiering_units := s.outstanding_tiering_units - 1,
        firedEvents := s.firedEvents ++
          [CompilationEvent.kFinishedTopTierCompilation] }
    else
      { s with outstanding_tiering_units := s.outstanding_tiering_units - 1 }
  else
    if s.outstanding_baseline_units - 1 = 0 then
      if s.compile_mode = CompileMode.kTiering then
        { s with
          outstanding_baseline_units := s.outstanding_baseline_units - 1,
          firedEvents := s.firedEvents ++
            [CompilationEvent.kFinishedBaselineCompilation] }
      else
        { s with
          outstanding_baseline_units := s.outstanding_baseline_units - 1,
          firedEvents := s.firedEvents ++
            [CompilationEvent.kFinishedBaselineCompilation,
             CompilationEvent.kFinishedTopTierCompilation] }
    else
      { s with outstanding_baseline_units := s.outstanding_baseline_units - 1 }

/-- Iterated OnFinishedUnit: the state after k finished units. -/
def CompilationStateImpl.iterFinish (s : CompilationStateImpl) :
    Nat → CompilationStateImpl
  | 0 => s
  | k + 1 => (s.iterFinish k).OnFinishedUnit

/-- CompilationStateImpl::ScheduleUnitForFinishing (lines 3128-3143): route the
unit into tiering_finish_units_ iff the mode is tiering and the tier is
kOptimized, else into baseline_finish_units_; then, if no finisher is running
and no error is latched, post one finisher task and set the flag. -/
def CompilationStateImpl.ScheduleUnitForFinishing (s : CompilationStateImpl)
    (unit : WasmCompilationUnit) (tier : ExecutionTier) : CompilationStateImpl :=
  let s1 :=
    if s.compile_mode = CompileMode.kTiering ∧ tier = ExecutionTier.kOptimized then
      { s with tiering_finish_units := s.tiering_finish_units ++ [unit] }
    else
      { s with baseline_finish_units := s.baseline_finish_units ++ [unit] }
  if s1.finisher_is_running = false ∧ s1.failed = false then
    { s1 with
      finisher_is_running := true,
      posted_finisher_tasks := s1.posted_finisher_tasks + 1 }
  else s1

/-- CompilationStateImpl::RestartBackgroundTasks (lines 3175-3203). The C++
default argument max = numeric_limits of size_t is modelled by Option.none
(no cap). Returns early if an error is latched or the pool is saturated;
otherwise spawns min(max, pending units, free slots) background tasks. -/
def CompilationStateImpl.RestartBackgroundTasks (s : CompilationStateImpl)
    (max : Option Nat) : CompilationStateImpl :=
  if s.failed then s
  else if s.num_background_tasks = s.max_background_tasks then s
  else
    let num_compilation_units :=
      s.baseline_compilation_units.length + s.tiering_compilation_units.length
    let stopped_tasks := s.max_background_tasks - s.num_background_tasks
    let num_restart :=
      match max with
      | none => min num_compilation_units stopped_tasks
      | some m => min m (min num_compilation_units stopped_tasks)
    { s with
      num_background_tasks := s.num_background_tasks + num_restart,
      spawned_worker_tasks := s.spawned_worker_tasks + num_restart }

/-- CompilationStateImpl::AddCompilationUnits (lines 3038-3062): append the new
units under the mutex (tiering units only in tiering mode), then restart the
background tasks without a cap. -/
def CompilationStateImpl.AddCompilationUnits (s : CompilationStateImpl)
    (baseline_units tiering_units : List WasmCompilationUnit) :
    CompilationStateImpl :=
  let s1 :=
    if s.compile_mode = CompileMode.kTiering then
      { s with
        tiering_compilation_units := s.tiering_compilation_units ++ tiering_units,
        baseline_compilation_units :=
          s.baseline_compilation_units ++ baseline_units }
    else
      { s with
        baseline_compilation_units :=
          s.baseline_compilation_units ++ baseline_units }
  s1.RestartBackgroundTasks none

/-- CompilationStateImpl::GetCompileError (lines 129-145). The function name
lookup (NativeModule::module()->LookupFunctionName on the wire bytes, defined
outside these sources) is passed in as an abstract function from function
index to optional name. Returns none when no error is latched (the code
asserts DCHECK_NOT_NULL there). -/
def CompilationStateImpl.GetCompileError (lookupFunctionName : Nat → Option String)
    (s : CompilationStateImpl) : Option VoidResult :=
  match s.compile_error with
  | none => none
  | some error =>
    let name_part :=
      match lookupFunctionName error.func_index with
      | some name => name
      | none => "wasm-function[" ++ toString error.func_index ++ "]"
    some { error_offset := error.result.error_offset,
           error_msg := "Compiling wasm function \"" ++ name_part ++
             "\" failed: " ++ error.result.error_msg }

/-- CompilationUnitBuilder (lines 568-617): the two thread-local buffers. -/
structure CompilationUnitBuilder where
  baseline_units : List WasmCompilationUnit
  tiering_units : List WasmCompilationUnit
deriving DecidableEq, Repr

/-- CompilationUnitBuilder::AddUnit (lines 574-588): in tiering mode buffer one
kOptimized and one kBaseline unit; in regular mode buffer one unit at the
default tier (WasmCompilationUnit::GetDefaultExecutionTier is defined outside
these sources and is passed in). -/
def CompilationUnitBuilder.AddUnit (b : CompilationUnitBuilder)
    (mode : CompileMode) (default_tier : ExecutionTier) (func_index : Nat) :
    CompilationUnitBuilder :=
  match mode with
  | .kTiering =>
    { b with
      tiering_units := b.tiering_units ++ [⟨func_index, ExecutionTier.kOptimized⟩],
      baseline_units := b.baseline_units ++ [⟨func_index, ExecutionTier.kBaseline⟩] }
  | .kRegular =>
    { b with baseline_units := b.baseline_units ++ [⟨func_index, default_tier⟩] }

/-- CompilationUnitBuilder::Commit (lines 590-595): if both buffers are empty
return false without touching the compilation state; otherwise publish the
buffered units via AddCompilationUnits, clear the buffers and return true. -/
def CompilationUnitBuilder.Commit (b : CompilationUnitBuilder)
    (s : CompilationStateImpl) :
    Bool × CompilationUnitBuilder × CompilationStateImpl :=
  if b.baseline_units = [] ∧ b.tiering_units = [] then (false, b, s)
  else
    (true, ⟨[], []⟩, s.AddCompilationUnits b.baseline_units b.tiering_units)

/-- The callbacks_ vector together with a log of the NotifyOnEvent calls: each
log entry records the callback list the event was delivered to and the event. -/
structure CallbacksState where
  callbacks : List Nat
  log : List (List Nat × CompilationEvent)
deriving DecidableEq, Repr

/-- CompilationStateImpl::NotifyOnEvent (lines 3252-3260): deliver the event to
every registered callback, then clear the callbacks if the event is final. -/
def CallbacksState.NotifyOnEvent (st : CallbacksState)
    (event : CompilationEvent) : CallbacksState :=
  { callbacks := if event.isFinal then [] else st.callbacks,
    log := st.log ++ [(st.callbacks, event)] }

/-- Run NotifyOnEvent over a sequence of fired events, starting from a given
callback list and an empty log. -/
def notifyTrace (cbs : List Nat) (events : List CompilationEvent) :
    CallbacksState :=
  events.foldl CallbacksState.NotifyOnEvent ⟨cbs, []⟩

/-- Number of NotifyOnEvent calls in a log that delivered a final event to a
nonempty callback list. -/
def deliveredFinalCount (log : List (List Nat × CompilationEvent)) : Nat :=
  log.countP (fun p => !p.1.isEmpty && p.2.isFinal)

/-- Total number of compilation units for n functions in a given mode: two per
function in tiering mode, one otherwise. -/
def totalUnits (mode : CompileMode) (n : Nat) : Nat :=
  match mode with
  | .kTiering => 2 * n
  | .kRegular => n

/-- A freshly constructed compilation state (lines 2996-3011): no error, empty
queues, zero counters, finisher not running. -/
def freshState (mode : CompileMode) (max_workers : Nat) : CompilationStateImpl :=
  { compile_mode := mode
    compile_error := none
    baseline_compilation_units := []
    tiering_compilation_units := []
    finisher_is_running := false
    num_background_tasks := 0
    baseline_finish_units := []
    tiering_finish_units := []
    max_background_tasks := max_workers
    outstanding_baseline_units := 0
    outstanding_tiering_units := 0
    firedEvents := []
    posted_fail_tasks := 0
    posted_finisher_tasks := 0
    spawned_worker_tasks := 0 }

/-- The state right after SetNumberOfFunctionsToCompile n on a fresh state:
baseline counter n, tiering counter n in tiering mode. -/
def afterSetTotal (mode : CompileMode) (n : Nat) : CompilationStateImpl :=
  { freshState mode 0 with
    outstanding_baseline_units := n,
    outstanding_tiering_units :=
      if mode = CompileMode.kTiering then n else 0 }

/-- A tiering-mode state whose baseline counter is positive while the tiering
counter is zero; used as a concrete input for counter predicates. -/
def cexTieringState : CompilationStateImpl :=
  { freshState CompileMode.kTiering 1 with
    outstanding_baseline_units := 1,
    outstanding_tiering_units := 0 }

/-- A fresh regular-mode compilation state used as a concrete input. -/
def regState : CompilationStateImpl := freshState CompileMode.kRegular 1

/-- A regular-mode state with one pending baseline unit and a latched error. -/
def erroredState : CompilationStateImpl :=
  { freshState CompileMode.kRegular 1 with
    compile_error := some ⟨0, ⟨0, "Compilation aborted"⟩⟩,
    baseline_compilation_units := [⟨0, ExecutionTier.kBaseline⟩] }

/-- A regular-mode state with one pending baseline unit and no error. -/
def unitsState : CompilationStateImpl :=
  { freshState CompileMode.kRegular 1 with
    baseline_compilation_units := [⟨0, ExecutionTier.kBaseline⟩] }

/-- A sample compilation unit targeting the optimized tier. -/
def sampleUnit : WasmCompilationUnit := ⟨0, ExecutionTier.kOptimized⟩

/-! Helper lemmas -/

/-- Once the error latch is set, every further SetError call is a no-op on the
whole state. -/
theorem setError_of_latched (s : CompilationStateImpl) (i : Nat)
    (e : VoidResult) (h : s.compile_error.isSome = true) :
    s.SetError i e = s := by
  unfold CompilationStateImpl.SetError
  cases herr : s.compile_error with
  | none => rw [herr] at h; simp at h
  | some c => rfl

/-- Once the error latch is set, a whole trace of SetError calls is a no-op. -/
theorem setErrorTrace_of_latched (errs : List (Nat × VoidResult)) :
    ∀ s : CompilationStateImpl, s.compile_error.isSome = true →
      s.setErrorTrace errs = s := by
  induction errs with
  | nil => intro s _; rfl
  | cons e rest ih =>
    intro s h
    unfold CompilationStateImpl.setErrorTrace
    rw [List.foldl_cons]
    have hs : s.SetError e.1 e.2 = s := setError_of_latched s e.1 e.2 h
    rw [hs]
    exact ih s h

/-- Once the callback list is empty, every further NotifyOnEvent call delivers
to nobody and the callback list stays empty. -/
theorem notify_foldl_of_empty_callbacks (events : List CompilationEvent) :
    ∀ st : CallbacksState, st.callbacks = [] →
      events.foldl CallbacksState.NotifyOnEvent st
        = ⟨[], st.log ++ events.map (fun e => ([], e))⟩ := by
  induction events with
  | nil => intro st h; cases st; simp_all
  | cons e rest ih =>
    intro st h
    rw [List.foldl_cons]
    have hstep : st.NotifyOnEvent e = ⟨[], st.log ++ [([], e)]⟩ := by
      unfold CallbacksState.NotifyOnEvent
      rw [h]
      simp
    rw [hstep, ih ⟨[], st.log ++ [([], e)]⟩ rfl]
    simp

/-- Invariant of the NotifyOnEvent fold: while callbacks are still registered
no final event has been delivered, and overall at most one final event is
delivered to a nonempty callback list. -/
theorem notify_foldl_final_count (events : List CompilationEvent) :
    ∀ st : CallbacksState,
      (st.callbacks ≠ [] → deliveredFinalCount st.log = 0) →
      deliveredFinalCount st.log ≤ 1 →
      ((events.foldl CallbacksState.NotifyOnEvent st).callbacks ≠ [] →
        deliveredFinalCount (events.foldl CallbacksState.NotifyOnEvent st).log = 0)
      ∧ deliveredFinalCount (events.foldl CallbacksState.NotifyOnEvent st).log ≤ 1 := by
  induction events with
  | nil => intro st h1 h2; exact ⟨h1, h2⟩
  | cons e rest ih =>
    intro st h1 h2
    rw [List.foldl_cons]
    have hlog : deliveredFinalCount (st.NotifyOnEvent e).log
        = deliveredFinalCount st.log
          + (if (!st.callbacks.isEmpty && e.isFinal) = true then 1 else 0) := by
      unfold CallbacksState.NotifyOnEvent deliveredFinalCount
      rw [List.countP_append]
      simp [List.countP_cons]
    by_cases hcb : st.callbacks = []
    · have hz : (!st.callbacks.isEmpty && e.isFinal) = false := by
        rw [hcb]; simp
      refine ih (st.NotifyOnEvent e) ?_ ?_
      · intro hne
        exfalso
        apply hne
        unfold CallbacksState.NotifyOnEvent
        simp only [hcb]
        split <;> rfl
      · rw [hlog, hz]; simpa using h2
    · have hz : deliveredFinalCount st.log = 0 := h1 hcb
      by_cases hf : e.isFinal = true
      · refine ih (st.NotifyOnEvent e) ?_ ?_
        · intro hne
          exfalso
          apply hne
          unfold CallbacksState.NotifyOnEvent
          simp [hf]
        · rw [hlog, hz]
          split <;> omega
      · refine ih (st.NotifyOnEvent e) ?_ ?_
        · intro _
          rw [hlog, hz]
          simp [hf]
        · rw [hlog, hz]
          simp [hf]

/-- In regular mode OnFinishedUnit decrements the baseline counter and fires
the baseline event immediately followed by the top-tier event when it hits
zero. -/
theorem onFinishedUnit_regular_spec (u : CompilationStateImpl)
    (hm : u.compile_mode = CompileMode.kRegular) :
    u.OnFinishedUnit = { u with
      outstanding_baseline_units := u.outstanding_baseline_units - 1,
      firedEvents := u.firedEvents ++
        (if u.outstanding_baseline_units - 1 = 0
         then [CompilationEvent.kFinishedBaselineCompilation,
               CompilationEvent.kFinishedTopTierCompilation] else []) } := by
  unfold CompilationStateImpl.OnFinishedUnit
  rw [if_neg (by simp [hm])]
  by_cases h : u.outstanding_baseline_units - 1 = 0
  · rw [if_pos h, if_neg (by simp [hm]), if_pos h]
  · rw [if_neg h, if_neg h]
    simp

/-- In tiering mode, while the baseline counter is positive, OnFinishedUnit
decrements the baseline counter and fires only the baseline event when it
hits zero. -/
theorem onFinishedUnit_tiering_pos_spec (u : CompilationStateImpl)
    (hm : u.compile_mode = CompileMode.kTiering)
    (hb : u.outstanding_baseline_units ≠ 0) :
    u.OnFinishedUnit = { u with
      outstanding_baseline_units := u.outstanding_baseline_units - 1,
      firedEvents := u.firedEvents ++
        (if u.outstanding_baseline_units - 1 = 0
         then [CompilationEvent.kFinishedBaselineCompilation] else []) } := by
  unfold CompilationStateImpl.OnFinishedUnit
  rw [if_neg (by simp [hb])]
  by_cases h : u.outstanding_baseline_units - 1 = 0
  · rw [if_pos h, if_pos hm, if_pos h]
  · rw [if_neg h, if_neg h]
    simp

/-- In tiering mode, once the baseline counter is zero, OnFinishedUnit
decrements the tiering counter and fires the top-tier event when it hits
zero. -/
theorem onFinishedUnit_tiering_zero_spec (u : CompilationStateImpl)
    (hm : u.compile_mode = CompileMode.kTiering)
    (hb : u.outstanding_baseline_units = 0) :
    u.OnFinishedUnit = { u with
      outstanding_tiering_units := u.outstanding_tiering_units - 1,
      firedEvents := u.firedEvents ++
        (if u.outstanding_tiering_units - 1 = 0
         then [CompilationEvent.kFinishedTopTierCompilation] else []) } := by
  unfold CompilationStateImpl.OnFinishedUnit
  rw [if_pos ⟨hm, hb⟩]
  by_cases h : u.outstanding_tiering_units - 1 = 0
  · rw [if_pos h, if_pos h]
  · rw [if_neg h, if_neg h]
    simp

/-- Closed form for iterated OnFinishedUnit in regular mode: after k of the n
finished units, the baseline counter is n - k and both events fire exactly at
the last unit. -/
theorem iterFinish_regular (s : CompilationStateImpl)
    (hm : s.compile_mode = CompileMode.kRegular) :
    ∀ k, k ≤ s.outstanding_baseline_units →
      (s.iterFinish k).compile_mode = CompileMode.kRegular
      ∧ (s.iterFinish k).outstanding_baseline_units
          = s.outstanding_baseline_units - k
      ∧ (s.iterFinish k).firedEvents = s.firedEvents ++
          (if k = s.outstanding_baseline_units ∧ 0 < k
           then [CompilationEvent.kFinishedBaselineCompilation,
                 CompilationEvent.kFinishedTopTierCompilation] else []) := by
  intro k
  induction k with
  | zero =>
    intro _
    refine ⟨hm, by simp [CompilationStateImpl.iterFinish], ?_⟩
    simp [CompilationStateImpl.iterFinish]
  | succ k ih =>
    intro hk
    obtain ⟨hmode, hb, hev⟩ := ih (by omega)
    have hstep : s.iterFinish (k + 1) = (s.iterFinish k).OnFinishedUnit := rfl
    rw [hstep, onFinishedUnit_regular_spec (s.iterFinish k) hmode]
    refine ⟨hmode, ?_, ?_⟩
    · simp only [hb]
      omega
    · simp only [hb, hev]

      by_cases hz : s.outstanding_baseline_units - k - 1 = 0
      · rw [if_pos hz,
          if_neg (by omega), List.append_nil,
          if_pos (by constructor <;> omega)]
      · rw [if_neg hz, if_neg (by omega), if_neg (by omega)]
        simp

/-- Closed form for iterated OnFinishedUnit in tiering mode starting from
equal counters n: the first n units drain the baseline counter and fire the
baseline event at unit n; the next n units drain the tiering counter and fire
the top-tier event at unit 2n. -/
theorem iterFinish_tiering (s : CompilationStateImpl)
    (hm : s.compile_mode = CompileMode.kTiering)
    (hbt : s.outstanding_tiering_units = s.outstanding_baseline_units) :
    ∀ k, k ≤ 2 * s.outstanding_baseline_units →
      (s.iterFinish k).compile_mode = CompileMode.kTiering
      ∧ (s.iterFinish k).outstanding_baseline_units
          = s.outstanding_baseline_units - k
      ∧ (s.iterFinish k).outstanding_tiering_units
          = s.outstanding_baseline_units - (k - s.outstanding_baseline_units)
      ∧ (s.iterFinish k).firedEvents = s.firedEvents ++
          (if k < s.outstanding_baseline_units then []
           else if k < 2 * s.outstanding_baseline_units
           then [CompilationEvent.kFinishedBaselineCompilation]
           else if 0 < s.outstanding_baseline_units
           then [CompilationEvent.kFinishedBaselineCompilation,
                 CompilationEvent.kFinishedTopTierCompilation] else []) := by
  intro k
  induction k with
  | zero =>
    intro _
    refine ⟨hm, by simp [CompilationStateImpl.iterFinish], ?_, ?_⟩
    · simp [CompilationStateImpl.iterFinish]
      omega
    · by_cases hn : 0 < s.outstanding_baseline_units
      · simp [CompilationStateImpl.iterFinish, hn]
      · have hz : s.outstanding_baseline_units = 0 := by omega
        simp [CompilationStateImpl.iterFinish, hz]
  | succ k ih =>
    intro hk
    obtain ⟨hmode, hb, ht, hev⟩ := ih (by omega)
    have hstep : s.iterFinish (k + 1) = (s.iterFinish k).OnFinishedUnit := rfl
    by_cases hlt : k < s.outstanding_baseline_units
    · -- a baseline unit is finished
      have hbne : (s.iterFinish k).outstanding_baseline_units ≠ 0 := by
        rw [hb]; omega
      rw [hstep, onFinishedUnit_tiering_pos_spec (s.iterFinish k) hmode hbne]
      refine ⟨hmode, ?_, ?_, ?_⟩
      · simp only [hb]; omega
      · simp only [ht]; omega
      · simp only [hb, hev, if_pos hlt, List.append_nil]
        by_cases hz : s.outstanding_baseline_units - k - 1 = 0
        · rw [if_pos hz, if_neg (by omega), if_pos (by omega)]
        · rw [if_neg hz, if_pos (by omega), List.append_nil]
    · -- a tiering unit is finished
      have hbz : (s.iterFinish k).outstanding_baseline_units = 0 := by
        rw [hb]; omega
      rw [hstep, onFinishedUnit_tiering_zero_spec (s.iterFinish k) hmode hbz]
      refine ⟨hmode, ?_, ?_, ?_⟩
      · simp only [hb]; omega
      · simp only [ht]; omega
      · have hn : 0 < s.outstanding_baseline_units := by omega
        simp only [ht, hev, if_neg hlt,
          if_pos (show k < 2 * s.outstanding_baseline_units by omega)]
        by_cases hz : s.outstanding_baseline_units
            - (k - s.outstanding_baseline_units) - 1 = 0
        · rw [if_pos hz, if_neg (by omega), if_neg (by omega), if_pos hn]
          simp
        · rw [if_neg hz, if_neg (by omega), if_pos (by omega), List.append_nil]

/-- C1. For every compile-state whose error latch is still absent and every
sequence of k >= 1 calls to SetError, the latch transitions exactly once, to
the error of the first call; exactly one foreground task firing
kFailedCompilation is posted (by that first call); and on any state whose
latch is already present a SetError call is ignored entirely. -/
theorem setError_fires_failed_compilation_exactly_once
    (s : CompilationStateImpl) (i : Nat) (e : VoidResult)
    (rest : List (Nat × VoidResult)) (h : s.compile_error = none) :
    (s.setErrorTrace ((i, e) :: rest)).compile_error = some ⟨i, e⟩
    ∧ (s.setErrorTrace ((i, e) :: rest)).posted_fail_tasks
        = s.posted_fail_tasks + 1
    ∧ (∀ (t : CompilationStateImpl) (j : Nat) (f : VoidResult),
        t.compile_error.isSome = true → t.SetError j f = t) := by
  refine ⟨?_, ?_, fun t j f ht => setError_of_latched t j f ht⟩ <;>
  · unfold CompilationStateImpl.setErrorTrace
    rw [List.foldl_cons]
    have h1 : s.SetError i e =
        { s with compile_error := some ⟨i, e⟩,
                 posted_fail_tasks := s.posted_fail_tasks + 1 } := by
      unfold CompilationStateImpl.SetError
      rw [h]
    rw [h1]
    have h2 := setErrorTrace_of_latched rest
      { s with compile_error := some ⟨i, e⟩,
               posted_fail_tasks := s.posted_fail_tasks + 1 } (by simp)
    unfold CompilationStateImpl.setErrorTrace at h2
    rw [h2]

/-- Witness for C1: the two-call trace on a fresh regular-mode state latches
the first error and posts exactly one failure task. -/
theorem setError_fires_failed_compilation_exactly_once_witness :
    ((freshState CompileMode.kRegular 2).setErrorTrace
        [(1, ⟨5, "boom"⟩), (2, ⟨6, "bam"⟩)]).compile_error
      = some ⟨1, ⟨5, "boom"⟩⟩
    ∧ ((freshState CompileMode.kRegular 2).setErrorTrace
        [(1, ⟨5, "boom"⟩), (2, ⟨6, "bam"⟩)]).posted_fail_tasks
      = (freshState CompileMode.kRegular 2).posted_fail_tasks + 1 := by
  have h := setError_fires_failed_compilation_exactly_once
    (freshState CompileMode.kRegular 2) 1 ⟨5, "boom"⟩ [(2, ⟨6, "bam"⟩)] rfl
  exact ⟨h.1, h.2.1⟩

/-- C2. For every compile-state: (1) after NotifyOnEvent processes a final
event, every later NotifyOnEvent call delivers to an empty callback list, so
no further event reaches any callback; (2) over any sequence of fired events
at most one final event (kFinishedTopTierCompilation or kFailedCompilation,
hence never both) is delivered to a nonempty callback list; (3) the events
fired by the unit-counting machinery from an initialized state are always a
prefix-ordered subsequence of baseline-finished followed by top-tier-finished,
so a final event is never followed by another fired event and
baseline-finished always precedes top-tier-finished. -/
theorem compilation_events_final_at_most_once_and_ordered :
    (∀ (cbs : List Nat) (pre : List CompilationEvent) (e : CompilationEvent)
        (post : List CompilationEvent), e.isFinal = true →
      (notifyTrace cbs (pre ++ e :: post)).log
        = (notifyTrace cbs (pre ++ [e])).log
            ++ post.map (fun e2 => (([] : List Nat), e2)))
    ∧ (∀ (cbs : List Nat) (events : List CompilationEvent),
        deliveredFinalCount (notifyTrace cbs events).log ≤ 1)
    ∧ (∀ (mode : CompileMode) (n k : Nat), k ≤ totalUnits mode n →
        ((afterSetTotal mode n).iterFinish k).firedEvents = []
        ∨ ((afterSetTotal mode n).iterFinish k).firedEvents
            = [CompilationEvent.kFinishedBaselineCompilation]
        ∨ ((afterSetTotal mode n).iterFinish k).firedEvents
            = [CompilationEvent.kFinishedBaselineCompilation,
               CompilationEvent.kFinishedTopTierCompilation]) := by
  refine ⟨?_, ?_, ?_⟩
  · intro cbs pre e post hfin
    unfold notifyTrace
    rw [List.foldl_append, List.foldl_append]
    set st1 := pre.foldl CallbacksState.NotifyOnEvent ⟨cbs, []⟩ with hst1
    have hmid : (st1.NotifyOnEvent e).callbacks = [] := by
      unfold CallbacksState.NotifyOnEvent
      simp [hfin]
    rw [List.foldl_cons,
      notify_foldl_of_empty_callbacks post (st1.NotifyOnEvent e) hmid]
    simp
  · intro cbs events
    exact (notify_foldl_final_count events ⟨cbs, []⟩
      (by intro _; simp [deliveredFinalCount])
      (by simp [deliveredFinalCount])).2
  · intro mode n k hk
    cases mode with
    | kRegular =>
      have hev := (iterFinish_regular (afterSetTotal CompileMode.kRegular n)
        rfl k (by simpa [afterSetTotal, freshState, totalUnits] using hk)).2.2
      rw [hev]
      simp only [afterSetTotal, freshState]
      split
      · right; right; simp
      · left; simp
    | kTiering =>
      have hev := (iterFinish_tiering (afterSetTotal CompileMode.kTiering n)
        rfl (by simp [afterSetTotal, freshState]) k
        (by simpa [afterSetTotal, freshState, totalUnits] using hk)).2.2.2
      rw [hev]
      simp only [afterSetTotal, freshState]
      split
      · left; simp
      · split
        · right; left; simp
        · split
          · right; right; simp
          · left; simp

/-- Witness for C2: a concrete instantiation of all three conjuncts. -/
theorem compilation_events_final_at_most_once_and_ordered_witness :
    (notifyTrace [7] [CompilationEvent.kFinishedBaselineCompilation,
        CompilationEvent.kFinishedTopTierCompilation,
        CompilationEvent.kFailedCompilation]).log
      = (notifyTrace [7] [CompilationEvent.kFinishedBaselineCompilation,
          CompilationEvent.kFinishedTopTierCompilation]).log
          ++ [(([] : List Nat), CompilationEvent.kFailedCompilation)]
    ∧ deliveredFinalCount (notifyTrace [7]
        [CompilationEvent.kFinishedBaselineCompilation,
         CompilationEvent.kFinishedTopTierCompilation,
         CompilationEvent.kFailedCompilation]).log ≤ 1
    ∧ (((afterSetTotal CompileMode.kTiering 2).iterFinish 3).firedEvents = []
        ∨ ((afterSetTotal CompileMode.kTiering 2).iterFinish 3).firedEvents
            = [CompilationEvent.kFinishedBaselineCompilation]
        ∨ ((afterSetTotal CompileMode.kTiering 2).iterFinish 3).firedEvents
            = [CompilationEvent.kFinishedBaselineCompilation,
               CompilationEvent.kFinishedTopTierCompilation]) := by
  refine ⟨?_, ?_, ?_⟩
  · have h := compilation_events_final_at_most_once_and_ordered.1 [7]
      [CompilationEvent.kFinishedBaselineCompilation]
      CompilationEvent.kFinishedTopTierCompilation
      [CompilationEvent.kFailedCompilation] rfl
    simpa using h
  · exact compilation_events_final_at_most_once_and_ordered.2.1 [7]
      [CompilationEvent.kFinishedBaselineCompilation,
       CompilationEvent.kFinishedTopTierCompilation,
       CompilationEvent.kFailedCompilation]
  · exact compilation_events_final_at_most_once_and_ordered.2.2
      CompileMode.kTiering 2 3 (by decide)

/-- C3. Under the positivity assumption checked by the DCHECKs (the counter
about to be decremented is nonzero), OnFinishedUnit decrements exactly one
outstanding counter, fires kFinishedBaselineCompilation exactly when the
baseline counter reaches zero, and fires kFinishedTopTierCompilation exactly
when the tiering counter reaches zero in tiering mode, respectively in the
same call as the baseline event in regular mode. -/
theorem onFinishedUnit_decrements_and_fires (s : CompilationStateImpl)
    (hpos : if s.compile_mode = CompileMode.kTiering
              ∧ s.outstanding_baseline_units = 0
            then 0 < s.outstanding_tiering_units
            else 0 < s.outstanding_baseline_units) :
    (s.OnFinishedUnit.outstanding_baseline_units
        + s.OnFinishedUnit.outstanding_tiering_units) + 1
      = s.outstanding_baseline_units + s.outstanding_tiering_units
    ∧ s.OnFinishedUnit.firedEvents = s.firedEvents ++
        (if s.compile_mode = CompileMode.kTiering then
           (if s.outstanding_baseline_units = 0 then
              (if s.outstanding_tiering_units = 1
               then [CompilationEvent.kFinishedTopTierCompilation] else [])
            else
              (if s.outstanding_baseline_units = 1
               then [CompilationEvent.kFinishedBaselineCompilation] else []))
         else
           (if s.outstanding_baseline_units = 1
            then [CompilationEvent.kFinishedBaselineCompilation,
                  CompilationEvent.kFinishedTopTierCompilation] else [])) := by
  by_cases hm : s.compile_mode = CompileMode.kTiering
  · by_cases hb : s.outstanding_baseline_units = 0
    · rw [if_pos ⟨hm, hb⟩] at hpos
      rw [onFinishedUnit_tiering_zero_spec s hm hb]
      constructor
      · simp only
        omega
      · simp only [if_pos hm, if_pos hb]
        have : (s.outstanding_tiering_units - 1 = 0)
            ↔ (s.outstanding_tiering_units = 1) := by omega
        simp only [this]
    · rw [if_neg (by tauto)] at hpos
      rw [onFinishedUnit_tiering_pos_spec s hm hb]
      constructor
      · simp only
        omega
      · simp only [if_pos hm, if_neg hb]
        have : (s.outstanding_baseline_units - 1 = 0)
            ↔ (s.outstanding_baseline_units = 1) := by omega
        simp only [this]
  · rw [if_neg (by tauto)] at hpos
    have hr : s.compile_mode = CompileMode.kRegular := by
      cases h : s.compile_mode
      · rfl
      · exact absurd h hm
    rw [onFinishedUnit_regular_spec s hr]
    constructor
    · simp only
      omega
    · simp only [if_neg hm]
      have : (s.outstanding_baseline_units - 1 = 0)
          ↔ (s.outstanding_baseline_units = 1) := by omega
      simp only [this]

/-- Witness for C3: one finished unit on a regular-mode state with a single
outstanding baseline unit fires baseline-finished and top-tier-finished in the
same call. -/
theorem onFinishedUnit_decrements_and_fires_witness :
    ((0 : Nat) <
      (afterSetTotal CompileMode.kRegular 1).outstanding_baseline_units)
    ∧ ((afterSetTotal CompileMode.kRegular 1).OnFinishedUnit.outstanding_baseline_units
          + (afterSetTotal CompileMode.kRegular 1).OnFinishedUnit.outstanding_tiering_units)
          + 1
        = (afterSetTotal CompileMode.kRegular 1).outstanding_baseline_units
          + (afterSetTotal CompileMode.kRegular 1).outstanding_tiering_units := by
  refine ⟨by decide, ?_⟩
  exact (onFinishedUnit_decrements_and_fires
    (afterSetTotal CompileMode.kRegular 1) (by decide)).1

/-- C10. OnFinishedUnit classifies a finished unit by the counters only (it
receives no unit and no tier): while the baseline counter is positive it
decrements the baseline counter and leaves the tiering counter untouched, and
whenever the tiering counter decreases the baseline counter was already zero
and the mode is tiering. -/
theorem onFinishedUnit_baseline_gates_tiering (s : CompilationStateImpl) :
    (0 < s.outstanding_baseline_units →
      s.OnFinishedUnit.outstanding_tiering_units = s.outstanding_tiering_units
      ∧ s.OnFinishedUnit.outstanding_baseline_units
          = s.outstanding_baseline_units - 1)
    ∧ (s.OnFinishedUnit.outstanding_tiering_units
          < s.outstanding_tiering_units →
        s.outstanding_baseline_units = 0
        ∧ s.compile_mode = CompileMode.kTiering) := by
  by_cases hm : s.compile_mode = CompileMode.kTiering
  · by_cases hb : s.outstanding_baseline_units = 0
    · rw [onFinishedUnit_tiering_zero_spec s hm hb]
      exact ⟨fun hpos => absurd hb (by omega), fun _ => ⟨hb, hm⟩⟩
    · rw [onFinishedUnit_tiering_pos_spec s hm hb]
      refine ⟨fun _ => ⟨rfl, rfl⟩, fun hlt => absurd hlt (by simp)⟩
  · have hr : s.compile_mode = CompileMode.kRegular := by
      cases h : s.compile_mode
      · rfl
      · exact absurd h hm
    rw [onFinishedUnit_regular_spec s hr]
    refine ⟨fun _ => ⟨rfl, rfl⟩, fun hlt => absurd hlt (by simp)⟩

/-- Witness for C10: with two outstanding baseline units in tiering mode, a
finished unit leaves the tiering counter untouched. -/
theorem onFinishedUnit_baseline_gates_tiering_witness :
    ((0 : Nat) <
      (afterSetTotal CompileMode.kTiering 2).outstanding_baseline_units)
    ∧ (afterSetTotal CompileMode.kTiering 2).OnFinishedUnit.outstanding_tiering_units
        = (afterSetTotal CompileMode.kTiering 2).outstanding_tiering_units := by
  refine ⟨by decide, ?_⟩
  exact ((onFinishedUnit_baseline_gates_tiering
    (afterSetTotal CompileMode.kTiering 2)).1 (by decide)).1

/-- C4, counterexample. In tiering mode with one outstanding baseline unit and
zero outstanding tiering units, baseline_compilation_finished returns true
although the baseline counter is nonzero, so the predicate is not equivalent
to outstanding_baseline = 0 over all counter states. -/
theorem baseline_compilation_finished_claim_cex :
    cexTieringState.baseline_compilation_finished = true
    ∧ cexTieringState.outstanding_baseline_units = 1
    ∧ cexTieringState.compile_mode = CompileMode.kTiering
    ∧ cexTieringState.outstanding_tiering_units = 0 := by decide

/-- C4, amended. For every state of the counters,
baseline_compilation_finished returns true iff the baseline counter is zero or
the mode is tiering and the tiering counter is zero. -/
theorem baseline_compilation_finished_characterization
    (s : CompilationStateImpl) :
    s.baseline_compilation_finished = true
      ↔ (s.outstanding_baseline_units = 0
         ∨ (s.compile_mode = CompileMode.kTiering
            ∧ s.outstanding_tiering_units = 0)) := by
  unfold CompilationStateImpl.baseline_compilation_finished
  simp

/-- C5, counterexample. In regular mode a unit finished at the optimized tier
is appended to baseline_finish_units, not to tiering_finish_units, so the
routing is not by tier regardless of compile mode. -/
theorem scheduleUnitForFinishing_claim_cex :
    regState.compile_mode = CompileMode.kRegular
    ∧ regState.tiering_finish_units = []
    ∧ (regState.ScheduleUnitForFinishing sampleUnit
        ExecutionTier.kOptimized).tiering_finish_units = []
    ∧ (regState.ScheduleUnitForFinishing sampleUnit
        ExecutionTier.kOptimized).baseline_finish_units = [sampleUnit] := by
  decide

/-- C5, amended. ScheduleUnitForFinishing appends the unit to
tiering_finish_units iff the mode is tiering and the tier is optimized, and to
baseline_finish_units otherwise; when no finisher is running and no error is
latched it sets the finisher flag and posts exactly one finisher task, and
otherwise it posts nothing and leaves the flag alone. -/
theorem scheduleUnitForFinishing_routing_and_finisher
    (s : CompilationStateImpl) (u : WasmCompilationUnit)
    (tier : ExecutionTier) :
    ((s.ScheduleUnitForFinishing u tier).tiering_finish_units
        = if s.compile_mode = CompileMode.kTiering
             ∧ tier = ExecutionTier.kOptimized
          then s.tiering_finish_units ++ [u] else s.tiering_finish_units)
    ∧ ((s.ScheduleUnitForFinishing u tier).baseline_finish_units
        = if s.compile_mode = CompileMode.kTiering
             ∧ tier = ExecutionTier.kOptimized
          then s.baseline_finish_units else s.baseline_finish_units ++ [u])
    ∧ (s.finisher_is_running = false ∧ s.failed = false →
        (s.ScheduleUnitForFinishing u tier).finisher_is_running = true
        ∧ (s.ScheduleUnitForFinishing u tier).posted_finisher_tasks
            = s.posted_finisher_tasks + 1)
    ∧ (¬(s.finisher_is_running = false ∧ s.failed = false) →
        (s.ScheduleUnitForFinishing u tier).finisher_is_running
            = s.finisher_is_running
        ∧ (s.ScheduleUnitForFinishing u tier).posted_finisher_tasks
            = s.posted_finisher_tasks) := by
  unfold CompilationStateImpl.ScheduleUnitForFinishing
  by_cases hroute : s.compile_mode = CompileMode.kTiering
      ∧ tier = ExecutionTier.kOptimized
  · simp only [if_pos hroute]
    by_cases herr : s.compile_error = none <;>
    by_cases hfr : s.finisher_is_running = false <;>
    simp_all [CompilationStateImpl.failed]
  · simp only [if_neg hroute]
    by_cases herr : s.compile_error = none <;>
    by_cases hfr : s.finisher_is_running = false <;>
    simp_all [CompilationStateImpl.failed]

/-- Witness for C5 (amended): on a fresh regular-mode state with no finisher
running and no error, scheduling a finished unit starts the finisher. -/
theorem scheduleUnitForFinishing_routing_and_finisher_witness :
    (regState.finisher_is_running = false ∧ regState.failed = false)
    ∧ (regState.ScheduleUnitForFinishing sampleUnit
        ExecutionTier.kBaseline).finisher_is_running = true := by
  refine ⟨by decide, ?_⟩
  exact ((scheduleUnitForFinishing_routing_and_finisher regState sampleUnit
    ExecutionTier.kBaseline).2.2.1 (by decide)).1

/-- C6, counterexample. On a state with a latched error, one pending unit, one
free worker slot and cap 1, RestartBackgroundTasks spawns no task although
min(max, pending, free slots) = 1, so the spawn-count formula does not hold in
every state. -/
theorem restartBackgroundTasks_claim_cex :
    erroredState.RestartBackgroundTasks (some 1) = erroredState
    ∧ erroredState.spawned_worker_tasks = 0
    ∧ min 1 (min (erroredState.baseline_compilation_units.length
        + erroredState.tiering_compilation_units.length)
        (erroredState.max_background_tasks
          - erroredState.num_background_tasks)) = 1 := by decide

/-- C6, amended. When no error is latched, RestartBackgroundTasks(max) spawns
exactly min(max, pending units, max_workers - num_workers_running) worker
tasks and increases the worker count by the same amount; when an error is
latched it does nothing; in both cases num_workers_running stays bounded by
max_workers (which never changes). -/
theorem restartBackgroundTasks_spawn_count_and_bound
    (s : CompilationStateImpl) (max : Nat)
    (hinv : s.num_background_tasks ≤ s.max_background_tasks) :
    (s.failed = true → s.RestartBackgroundTasks (some max) = s)
    ∧ (s.failed = false →
        (s.RestartBackgroundTasks (some max)).spawned_worker_tasks
          = s.spawned_worker_tasks
            + min max (min (s.baseline_compilation_units.length
                + s.tiering_compilation_units.length)
                (s.max_background_tasks - s.num_background_tasks))
        ∧ (s.RestartBackgroundTasks (some max)).num_background_tasks
          = s.num_background_tasks
            + min max (min (s.baseline_compilation_units.length
                + s.tiering_compilation_units.length)
                (s.max_background_tasks - s.num_background_tasks)))
    ∧ (s.RestartBackgroundTasks (some max)).num_background_tasks
        ≤ s.max_background_tasks
    ∧ (s.RestartBackgroundTasks (some max)).max_background_tasks
        = s.max_background_tasks := by
  by_cases hfail : s.failed = true
  · have hif : s.RestartBackgroundTasks (some max) = s := by
      unfold CompilationStateImpl.RestartBackgroundTasks
      rw [if_pos hfail]
    rw [hif]
    exact ⟨fun _ => rfl, fun hc => absurd hfail (by simp [hc]), hinv, rfl⟩
  · unfold CompilationStateImpl.RestartBackgroundTasks
    rw [if_neg hfail]
    by_cases hsat : s.num_background_tasks = s.max_background_tasks
    · rw [if_pos hsat]
      refine ⟨fun hc => absurd hc hfail, fun _ => ⟨?_, ?_⟩, hinv, rfl⟩ <;>
      · rw [hsat, Nat.sub_self]
        simp
    · rw [if_neg hsat]
      refine ⟨fun hc => absurd hc hfail, fun _ => ⟨rfl, rfl⟩, ?_, rfl⟩
      show s.num_background_tasks
          + min max (min (s.baseline_compilation_units.length
              + s.tiering_compilation_units.length)
              (s.max_background_tasks - s.num_background_tasks))
          ≤ s.max_background_tasks
      have h1 : min max (min (s.baseline_compilation_units.length
          + s.tiering_compilation_units.length)
          (s.max_background_tasks - s.num_background_tasks))
          ≤ min (s.baseline_compilation_units.length
              + s.tiering_compilation_units.length)
              (s.max_background_tasks - s.num_background_tasks) :=
        min_le_right _ _
      have h2 : min (s.baseline_compilation_units.length
          + s.tiering_compilation_units.length)
          (s.max_background_tasks - s.num_background_tasks)
          ≤ s.max_background_tasks - s.num_background_tasks :=
        min_le_right _ _
      omega

/-- Witness for C6 (amended): on a clean state with one pending unit the
worker count stays within the bound after a restart. -/
theorem restartBackgroundTasks_spawn_count_and_bound_witness :
    unitsState.num_background_tasks ≤ unitsState.max_background_tasks
    ∧ (unitsState.RestartBackgroundTasks (some 5)).num_background_tasks
        ≤ unitsState.max_background_tasks := by
  refine ⟨by decide, ?_⟩
  exact (restartBackgroundTasks_spawn_count_and_bound unitsState 5
    (by decide)).2.2.1

/-- C7, counterexample. On a state that already holds a pending compilation
unit but no error, SetNumberOfFunctionsToCompile succeeds, so the claimed
failure on existing units does not happen. -/
theorem setNumberOfFunctionsToCompile_claim_cex :
    unitsState.baseline_compilation_units ≠ []
    ∧ unitsState.failed = false
    ∧ (unitsState.SetNumberOfFunctionsToCompile 3).isSome = true := by decide

/-- C7, amended. SetNumberOfFunctionsToCompile(n) fails (its debug assertion)
exactly when an error has been latched; on success it sets the baseline
counter to n and, in tiering mode, the tiering counter to n (existing units
are not checked). -/
theorem setNumberOfFunctionsToCompile_behavior (s : CompilationStateImpl)
    (n : Nat) :
    ((s.SetNumberOfFunctionsToCompile n = none) ↔ s.failed = true)
    ∧ (∀ t : CompilationStateImpl, s.SetNumberOfFunctionsToCompile n = some t →
        t.outstanding_baseline_units = n
        ∧ t.outstanding_tiering_units
            = (if s.compile_mode = CompileMode.kTiering then n
               else s.outstanding_tiering_units)) := by
  unfold CompilationStateImpl.SetNumberOfFunctionsToCompile
  by_cases h : s.failed
  · simp [h]
  · constructor
    · simp [h]
    · intro t ht
      rw [if_neg (by simp [h])] at ht
      have ht2 := Option.some.inj ht
      rw [← ht2]
      exact ⟨rfl, rfl⟩

/-- Witness for C7 (amended): setting the total on a fresh regular-mode state
sets the baseline counter. -/
theorem setNumberOfFunctionsToCompile_behavior_witness :
    regState.SetNumberOfFunctionsToCompile 2
      = some { regState with outstanding_baseline_units := 2 }
    ∧ ({ regState with outstanding_baseline_units := 2 }
        : CompilationStateImpl).outstanding_baseline_units = 2 := by
  refine ⟨by decide, ?_⟩
  exact ((setNumberOfFunctionsToCompile_behavior regState 2).2
    { regState with outstanding_baseline_units := 2 } (by decide)).1

/-- C8. Committing an empty Unit Builder returns false and leaves the builder
and the compilation state unchanged; every commit that returns true clears the
buffers; and for any builder a second commit right after a commit is a no-op
returning false. -/
theorem commit_empty_noop_and_once (b : CompilationUnitBuilder)
    (s : CompilationStateImpl) :
    (b.baseline_units = [] → b.tiering_units = [] → b.Commit s = (false, b, s))
    ∧ ((b.Commit s).1 = true →
        (b.Commit s).2.1 = (⟨[], []⟩ : CompilationUnitBuilder))
    ∧ ((b.Commit s).2.1.Commit (b.Commit s).2.2
        = (false, (b.Commit s).2.1, (b.Commit s).2.2)) := by
  unfold CompilationUnitBuilder.Commit
  by_cases h : b.baseline_units = [] ∧ b.tiering_units = []
  · simp [h]
  · refine ⟨fun h1 h2 => absurd ⟨h1, h2⟩ h, ?_, ?_⟩
    · rw [if_neg h]
      intro _
      rfl
    · rw [if_neg h]
      simp

/-- Witness for C8: committing the empty builder on a fresh state is a no-op
returning false. -/
theorem commit_empty_noop_and_once_witness :
    (⟨[], []⟩ : CompilationUnitBuilder).Commit regState
      = (false, (⟨[], []⟩ : CompilationUnitBuilder), regState) := by
  exact (commit_empty_noop_and_once ⟨[], []⟩ regState).1 rfl rfl

/-- C9. For every latched compile error with function index i and message m,
GetCompileError surfaces the offset of the stored result and the message
built as: Compiling wasm function, a quote, the name recorded for i in the
wire bytes if there is one and wasm-function[i] otherwise, a quote, failed,
then m. -/
theorem getCompileError_message_format (lookup : Nat → Option String)
    (s : CompilationStateImpl) (i off : Nat) (m : String)
    (herr : s.compile_error = some ⟨i, ⟨off, m⟩⟩) :
    (∀ name : String, lookup i = some name →
      CompilationStateImpl.GetCompileError lookup s
        = some ⟨off, "Compiling wasm function \"" ++ name
            ++ "\" failed: " ++ m⟩)
    ∧ (lookup i = none →
      CompilationStateImpl.GetCompileError lookup s
        = some ⟨off, "Compiling wasm function \""
            ++ ("wasm-function[" ++ toString i ++ "]")
            ++ "\" failed: " ++ m⟩) := by
  unfold CompilationStateImpl.GetCompileError
  rw [herr]
  constructor
  · intro name hn
    simp [hn]
  · intro hn
    simp [hn]

/-- Witness for C9: the unnamed-function message for the error latched in
erroredState. -/
theorem getCompileError_message_format_witness :
    CompilationStateImpl.GetCompileError (fun _ => none) erroredState
      = some ⟨0, "Compiling wasm function \""
          ++ ("wasm-function[" ++ toString (0 : Nat) ++ "]")
          ++ "\" failed: " ++ "Compilation aborted"⟩ := by
  exact (getCompileError_message_format (fun _ => none) erroredState 0 0
    "Compilation aborted" rfl).2 rfl

end ModuleCompiler
